import Mathlib

/-!
Shallow embedding of `src/examples/hello-rust/hello.rs`:

```rust
use std::env;

fn main() {
    let name = env::args().nth(1).unwrap_or_else(|| "World".to_string());
    println!("Hello, {}! 🦀", name);
}
```

`env::args()` yields the full argument vector, whose element 0 is the
program's invocation path; `.nth(1)` is therefore the first user-supplied
argument.  `unwrap_or_else` defaults to `"World"`.  `println!` writes the
formatted text followed by a newline to standard output; on success the
process exits with status 0, and if the write fails the macro panics and
the process exits with Rust's panic status 101.
-/

/-- `env::args().nth(1)`: element `n` of the argument vector. -/
def argsNth (argv : List String) (n : Nat) : Option String :=
  argv.get? n

/-- The resolved name: `env::args().nth(1).unwrap_or_else(|| "World".to_string())`. -/
def resolvedName (argv : List String) : String :=
  (argsNth argv 1).getD "World"

/-- The text `println!("Hello, {}! 🦀", name)` writes to standard output
(including the trailing newline the macro appends). -/
def mainOutput (argv : List String) : String :=
  "Hello, " ++ resolvedName argv ++ "! 🦀\n"

/-- Observable side effects a process can perform in this model. -/
inductive Effect
  | writeStdout (s : String)
  | readFile (path : String)
  | writeFile (path contents : String)
  | network (addr : String)
  | readEnvVar (key : String)
  | writeEnvVar (key value : String)
  deriving DecidableEq, Repr

/-- The effect trace of `main`: its body performs exactly one I/O action,
the `println!` write to standard output. -/
def mainEffects (argv : List String) : List Effect :=
  [Effect.writeStdout (mainOutput argv)]

/-- `main` as a whole-process run: given whether the write to standard
output succeeds, the text written and the process exit status.  On write
failure `println!` panics, so the process exits with status 101. -/
def mainRun (argv : List String) (writeOk : Bool) : String × Nat :=
  if writeOk then (mainOutput argv, 0) else ("", 101)

/-- Control-flow states of `main`: acquire the name, format the line,
write it, exit.  There is no loop and no recursion. -/
inductive ProgState
  | start (argv : List String)
  | gotName (name : String)
  | printed (out : String)
  | exited (out : String) (code : Nat)
  deriving DecidableEq, Repr

/-- One step of `main`'s straight-line control flow. -/
def step : ProgState → ProgState
  | ProgState.start argv => ProgState.gotName (resolvedName argv)
  | ProgState.gotName n => ProgState.printed ("Hello, " ++ n ++ "! 🦀\n")
  | ProgState.printed o => ProgState.exited o 0
  | ProgState.exited o c => ProgState.exited o c

/-- Iterated stepping. -/
def stepN (n : Nat) (s : ProgState) : ProgState :=
  Nat.rec s (fun _ acc => step acc) n

/-- Count of occurrences of a character in a string. -/
def countChar (c : Char) (s : String) : Nat :=
  s.data.count c

/-- The output splits at the character level into the literal head, the
resolved name, and the literal tail. -/
theorem mainOutput_data (argv : List String) :
    (mainOutput argv).data =
      "Hello, ".data ++ (resolvedName argv).data ++ "! 🦀\n".data := by
  simp [mainOutput, String.data_append]

/-- C1: with zero user arguments (argv holds only the invocation path),
the program writes exactly `Hello, World! 🦀\n` to standard output. -/
theorem zero_args_hello_world (prog : String) :
    mainOutput [prog] = "Hello, World! 🦀\n" := rfl

/-- C2: with one or more user arguments the output is exactly
`Hello, <first argument>! 🦀\n`, and it does not depend on the arguments
after the first. -/
theorem first_arg_greeted (prog n : String) (rest : List String) :
    mainOutput (prog :: n :: rest) = "Hello, " ++ n ++ "! 🦀\n" ∧
    ∀ rest' : List String,
      mainOutput (prog :: n :: rest) = mainOutput (prog :: n :: rest') :=
  ⟨rfl, fun _ => rfl⟩

/-- C3: an explicitly supplied empty-string first argument yields
`Hello, ! 🦀\n`, which differs from the zero-argument output. -/
theorem empty_arg_boundary (prog : String) :
    mainOutput [prog, ""] = "Hello, ! 🦀\n" ∧
    mainOutput [prog, ""] ≠ mainOutput [prog] := by
  refine ⟨rfl, ?_⟩
  have h1 : mainOutput [prog, ""] = "Hello, ! 🦀\n" := rfl
  have h2 : mainOutput [prog] = "Hello, World! 🦀\n" := rfl
  rw [h1, h2]
  decide

/-- C5: the program is deterministic: two runs on identical argument
lists (and identical write outcomes) produce identical results. -/
theorem run_deterministic (a b : List String) (w : Bool) (h : a = b) :
    mainRun a w = mainRun b w := by rw [h]

/-- Witness for `run_deterministic` at a concrete argument list. -/
theorem run_deterministic_witness :
    ["hello", "Ada"] = ["hello", "Ada"] ∧
      mainRun ["hello", "Ada"] true = mainRun ["hello", "Ada"] true :=
  ⟨rfl, run_deterministic ["hello", "Ada"] ["hello", "Ada"] true rfl⟩

/-- The claim that the output always contains exactly one newline fails
when the first argument itself contains a newline: for `["a\nb"]` the
output has two newline characters, although the exit status is still 0. -/
theorem one_line_counterexample :
    ¬ ((mainRun ["hello", "a\nb"] true).2 = 0 ∧
       countChar '\n' (mainRun ["hello", "a\nb"] true).1 = 1) := by
  decide

/-- C4 (amended): for every argument list, when the write succeeds the
exit status is 0; and when in addition the resolved name contains no
newline character, the output contains exactly one newline, at its very
end. -/
theorem exit_zero_one_line (argv : List String) :
    (mainRun argv true).2 = 0 ∧
    ('\n' ∉ (resolvedName argv).data →
      ∃ t, (mainRun argv true).1.data = t ++ ['\n'] ∧ '\n' ∉ t) := by
  refine ⟨rfl, ?_⟩
  intro h
  refine ⟨"Hello, ".data ++ (resolvedName argv).data ++ "! 🦀".data,
    ?_, ?_⟩
  · show (mainOutput argv).data = _
    rw [mainOutput_data]
    have htail : "! 🦀\n".data = "! 🦀".data ++ ['\n'] := rfl
    rw [htail]
    simp [List.append_assoc]
  · intro hmem
    rcases List.mem_append.mp hmem with h1 | h2
    · rcases List.mem_append.mp h1 with h3 | h4
      · exact absurd h3 (by decide)
      · exact h h4
    · exact absurd h2 (by decide)

/-- Witness for `exit_zero_one_line` at the user argument list `["Ada"]`:
the exit status is 0, and the inner no-newline condition is discharged
concretely to obtain the single trailing newline. -/
theorem exit_zero_one_line_witness :
    (mainRun ["hello", "Ada"] true).2 = 0 ∧
    '\n' ∉ (resolvedName ["hello", "Ada"]).data ∧
    (∃ t, (mainRun ["hello", "Ada"] true).1.data = t ++ ['\n'] ∧
      '\n' ∉ t) :=
  ⟨(exit_zero_one_line ["hello", "Ada"]).1, by decide,
    (exit_zero_one_line ["hello", "Ada"]).2 (by decide)⟩

/-- C6: no validation and no transformation: any first argument is
accepted and its characters appear verbatim between the literal pieces,
and every argument list produces output of the normal greeting shape. -/
theorem no_validation_verbatim_echo :
    (∀ (prog n : String) (rest : List String),
      (mainOutput (prog :: n :: rest)).data =
        "Hello, ".data ++ n.data ++ "! 🦀\n".data) ∧
    ∀ argv : List String, ∃ name : String,
      mainOutput argv = "Hello, " ++ name ++ "! 🦀\n" := by
  constructor
  · intro prog n rest
    have hn : resolvedName (prog :: n :: rest) = n := rfl
    rw [mainOutput_data, hn]
  · intro argv
    exact ⟨resolvedName argv, rfl⟩

/-- C7: the effect trace of a run is a single write to standard output;
no file, network or environment effect occurs. -/
theorem single_stdout_write_only (argv : List String) :
    mainEffects argv = [Effect.writeStdout (mainOutput argv)] ∧
    ∀ e ∈ mainEffects argv, ∃ s, e = Effect.writeStdout s := by
  refine ⟨rfl, ?_⟩
  intro e he
  simp [mainEffects] at he
  exact ⟨mainOutput argv, he⟩

/-- C8: the straight-line control flow terminates: from the start state
the program reaches the exit state in exactly three steps and stays
there, for every argument list. -/
theorem straight_line_terminates (argv : List String) :
    stepN 3 (ProgState.start argv) = ProgState.exited (mainOutput argv) 0 ∧
    ∀ k : Nat,
      stepN (3 + k) (ProgState.start argv) =
        ProgState.exited (mainOutput argv) 0 := by
  refine ⟨rfl, ?_⟩
  intro k
  induction k with
  | zero => rfl
  | succ k ih =>
      show step (stepN (3 + k) (ProgState.start argv)) = _
      rw [ih]
      rfl

/-- C9: the defaulted name collides with an explicit `"World"`: the
zero-argument run and the run with the single argument `"World"` produce
identical output. -/
theorem default_world_collision (prog : String) :
    mainOutput [prog] = mainOutput [prog, "World"] := rfl

/-- C10: for every argument list the output begins with the literal
`Hello, ` and ends with the literal `! 🦀\n`. -/
theorem output_format_invariant (argv : List String) :
    (∃ rest, (mainOutput argv).data = "Hello, ".data ++ rest) ∧
    (∃ front, (mainOutput argv).data = front ++ "! 🦀\n".data) := by
  constructor
  · exact ⟨(resolvedName argv).data ++ "! 🦀\n".data, mainOutput_data argv⟩
  · refine ⟨"Hello, ".data ++ (resolvedName argv).data, ?_⟩
    rw [mainOutput_data, List.append_assoc]
